import Mathlib

/-!
# Verification of the `strictly-data` extraction engine

This file gives a shallow embedding, in Lean 4, of the row-extraction code of
the `strictly-data` repository (`src/extract.rs`, function `extract_rows`),
together with theorems settling the claims of the specification.

The Rust code is a set of `lol_html` streaming handlers over the HTML of one
season's article.  We model the post-tokenization event stream (heading
elements, `tr`/`td` open and close events, text chunks) as a list of `Event`
values, and each Rust closure as a Lean function on an explicit parser state.
Rust `panic!`/`assert!`/`unwrap` aborts and `?`-propagated errors are both
modelled as `Except` errors, distinguished by the two constructors of `PErr`.

Machine integers (`u8`, `u16`) are modelled as `Nat` with explicit bounds or
`% 256` where the code truncates; the `f32` average score is modelled as an
exact rational (`ℚ`).  For the tiny numerators and denominators involved
(total ≤ 255, judge count ≤ 256) the `f32` comparisons against the literals
`1.0` and `10.0` performed by the code agree with the exact rational
comparisons, so no behavior is lost by this abstraction.

Rust standard-library string operations used by the code (`split`, `splitn`,
`split_whitespace`, `trim`, `matches(",").count()`, integer `parse`) and the
`html_escape::decode_html_entities` helper are given executable Lean models
over `List Char`, written with structural (or fuel-based) recursion so that
concrete inputs evaluate inside the kernel.
-/

namespace Strictly

/-! ## String helpers (models of the Rust std library functions used) -/

/-- If `pat` is a prefix of `cs`, return the remainder of `cs` after it. -/
def stripLeadChars : List Char → List Char → Option (List Char)
  | [], cs => some cs
  | _ :: _, [] => none
  | p :: ps, c :: cs => if p = c then stripLeadChars ps cs else none

/-- Split on a separator pattern, fuel-driven so that the kernel can evaluate
it; `splitOnChars` always supplies enough fuel.  Models Rust
`str::split(pattern)` for a non-empty string pattern: the list of fragments
between non-overlapping occurrences of `sep`, empty fragments included. -/
def splitOnFuel (sep : List Char) : Nat → List Char → List (List Char)
  | 0, cs => [cs]
  | _ + 1, [] => [[]]
  | fuel + 1, c :: cs =>
    match stripLeadChars sep (c :: cs) with
    | some rest => [] :: splitOnFuel sep fuel rest
    | none =>
      match splitOnFuel sep fuel cs with
      | [] => [[c]]
      | g :: gs => (c :: g) :: gs

def splitOnChars (sep cs : List Char) : List (List Char) :=
  splitOnFuel sep (cs.length + 1) cs

/-- Rust `str::split(pat)` for a string pattern (e.g. `" & "`). -/
def splitOnS (s sep : String) : List String :=
  (splitOnChars sep.data s.data).map (fun cs => String.mk cs)

/-- Rust `str::split(&['_', ':'][..])`-style splitting on a character
predicate, empty fragments included. -/
def splitPredChars (p : Char → Bool) : List Char → List (List Char)
  | [] => [[]]
  | c :: cs =>
    if p c then [] :: splitPredChars p cs
    else
      match splitPredChars p cs with
      | [] => [[c]]
      | g :: gs => (c :: g) :: gs

def splitPredS (s : String) (p : Char → Bool) : List String :=
  (splitPredChars p s.data).map (fun cs => String.mk cs)

/-- Rust `str::trim` (whitespace from both ends). -/
def trimChars (cs : List Char) : List Char :=
  ((cs.dropWhile Char.isWhitespace).reverse.dropWhile Char.isWhitespace).reverse

def trimS (s : String) : String := String.mk (trimChars s.data)

/-- Rust `str::split_whitespace`: split on whitespace, dropping empty
fragments. -/
def splitWhitespaceS (s : String) : List String :=
  (splitPredChars Char.isWhitespace s.data).filterMap
    (fun cs => match cs with | [] => none | c :: rest => some (String.mk (c :: rest)))

def digitVal? (c : Char) : Option Nat :=
  if '0' ≤ c ∧ c ≤ '9' then some (c.toNat - 48) else none

def parseDigitsAux : List Char → Nat → Option Nat
  | [], acc => some acc
  | c :: cs, acc =>
    match digitVal? c with
    | some d => parseDigitsAux cs (acc * 10 + d)
    | none => none

/-- Non-empty all-digit character list to its value. -/
def parseNatChars? : List Char → Option Nat
  | [] => none
  | c :: cs => parseDigitsAux (c :: cs) 0

/-- Rust `str::parse` for an unsigned integer type: an optional leading `+`
sign followed by one or more ASCII digits, nothing else. -/
def parseUnsignedChars? (cs : List Char) : Option Nat :=
  match cs with
  | '+' :: rest => parseNatChars? rest
  | _ => parseNatChars? cs

/-- Rust `str::parse::<u8>()`: value must fit in `u8`. -/
def parseU8? (s : String) : Option Nat :=
  match parseUnsignedChars? s.data with
  | some n => if n ≤ 255 then some n else none
  | none => none

/-- Rust `str::parse::<u16>()`: value must fit in `u16`. -/
def parseU16? (s : String) : Option Nat :=
  match parseUnsignedChars? s.data with
  | some n => if n ≤ 65535 then some n else none
  | none => none

/-- Rust `s.matches(",").count()`: number of comma occurrences. -/
def countCommas (s : String) : Nat :=
  (splitOnChars [','] s.data).length - 1

/-- Model of `html_escape::decode_html_entities` for the named entities that
occur in this document family (`&amp;` `&lt;` `&gt;` `&quot;` `&nbsp;`);
text containing no entity sequence is returned unchanged, matching the
library's behavior on such input. -/
def entityTable : List (List Char × Char) :=
  [("amp;".data, '&'), ("lt;".data, '<'), ("gt;".data, '>'),
   ("quot;".data, '"'), ("nbsp;".data, ' ')]

def findEntity : List (List Char × Char) → List Char → Option (Char × List Char)
  | [], _ => none
  | (pat, c) :: rest, cs =>
    match stripLeadChars pat cs with
    | some r => some (c, r)
    | none => findEntity rest cs

def decodeFuel : Nat → List Char → List Char
  | 0, cs => cs
  | _ + 1, [] => []
  | fuel + 1, c :: cs =>
    if c = '&' then
      match findEntity entityTable cs with
      | some (d, rest) => d :: decodeFuel fuel rest
      | none => c :: decodeFuel fuel cs
    else c :: decodeFuel fuel cs

def decodeHtmlEntities (s : String) : String :=
  String.mk (decodeFuel (s.data.length + 1) s.data)

/-! ## Data model (from `src/extract.rs`) -/

/-- Abort conditions.  `fatalErr` models a Rust error returned from a handler
and propagated by `?` (a `RewritingError` from `extract_rows`); `crash` models
a `panic!`, a failed `assert!` or a failed `unwrap()`.  Either way the whole
parse aborts and no rows are returned. -/
inductive PErr
  | fatalErr (msg : String)
  | crash (msg : String)
deriving DecidableEq, Repr

/-- Model of `struct Row` of `src/extract.rs`.  `series`, `week` are `u16`,
`total_score`, `score_count` are `u8` (modelled as `Nat`); `avg_score` is the
`f32` average, modelled as an exact rational. -/
structure Row where
  series : Nat
  week : Nat
  celebrity : String
  professional : String
  dance : String
  total_score : Nat
  score_count : Nat
  avg_score : ℚ
  note : String
deriving DecidableEq, Repr

/-- Model of `enum CoupleExpect` of `src/extract.rs`. -/
inductive CoupleExpect
  | NewRow
  | Celebrity
  | EndRow
deriving DecidableEq, Repr

/-- Model of `struct CoupleState` of `src/extract.rs`. -/
structure CoupleState where
  state : CoupleExpect
  celebrity : String
deriving DecidableEq, Repr

/-- Model of `impl Default for CoupleState`. -/
def CoupleState.dflt : CoupleState := ⟨CoupleExpect.NewRow, ""⟩

/-- Model of `enum WeekExpect` of `src/extract.rs`. -/
inductive WeekExpect
  | NewRow
  | Couple
  | Score
  | Dance
  | EndRow
deriving DecidableEq, Repr

/-- Model of `struct WeekState` of `src/extract.rs`; the `_uses` fields are `u8`
rowspan repeat counts. -/
structure WeekState where
  state : WeekExpect
  week : Nat
  couple : String
  couple_uses : Nat
  score : String
  score_uses : Nat
  dance : String
  dance_uses : Nat
  note : String
deriving DecidableEq, Repr

/-- Model of `WeekState::new_for_week`. -/
def WeekState.new_for_week (week : Nat) : WeekState :=
  ⟨WeekExpect.NewRow, week, "", 0, "", 0, "", 0, ""⟩

/-- Model of `enum State` of `src/extract.rs`: the active table context. -/
inductive State
  | Unrecognized
  | CouplesTable (row : CoupleState)
  | WeekTable (row : WeekState)
deriving DecidableEq, Repr

/-! ## The moniker map (`celeb_moniker_to_name`)

The Rust code uses a `HashMap<String, String>`; we model it as an association
list with insert-overwrites semantics (`mapInsert`) and key lookup
(`mapGet`). -/

abbrev MMap := List (String × String)

def mapGet (m : MMap) (k : String) : Option String :=
  match m with
  | [] => none
  | (k', v) :: rest => if k' = k then some v else mapGet rest k

def mapInsert (m : MMap) (k v : String) : MMap :=
  match m with
  | [] => [(k, v)]
  | (k', v') :: rest => if k' = k then (k, v) :: rest else (k', v') :: mapInsert rest k v

/-- The `add` closure of the couples-row end handler (`src/extract.rs` lines
144-156): an unregistered moniker is mapped to the full name; a moniker that
is already registered (duplicate moniker for two celebrities) is overwritten
with the empty string. -/
def addMoniker (m : MMap) (moniker full_name : String) : MMap :=
  match mapGet m moniker with
  | some _ => mapInsert m moniker ""
  | none => mapInsert m moniker full_name

/-- Moniker registration for one decoded, trimmed celebrity full name
(`src/extract.rs` lines 136-174).  `"DJ Spoony"` is the literal exception;
otherwise the first name, `"First I."` and `"First Second"` candidate
monikers are registered through `addMoniker`.  The `unwrap()` on
`second_name.chars().next()` is modelled by the `crash` branch. -/
def registerFullName (m : MMap) (full_name : String) : Except PErr MMap :=
  if full_name = "DJ Spoony" then
    Except.ok (mapInsert m "Spoony" full_name)
  else
    match splitOnS full_name " " with
    | [] => Except.error (PErr.crash "split produced nothing")
    | first_name :: rest =>
      match rest with
      | [] => Except.ok (addMoniker m first_name full_name)
      | second_name :: _ =>
        match second_name.data with
        | [] => Except.error (PErr.crash "chars().next().unwrap()")
        | initial :: _ =>
          let name_initial := first_name ++ " " ++ String.mk [initial] ++ "."
          let two_names := first_name ++ " " ++ second_name
          let m1 := addMoniker m name_initial full_name
          let m2 := addMoniker m1 two_names full_name
          Except.ok (addMoniker m2 first_name full_name)

/-- The couples-row end handler body (`tr.on_end_tag` in the
`CouplesTable` arm): entity-decode and trim the accumulated celebrity cell
text, then register its monikers. -/
def registerCelebrity (m : MMap) (raw : String) : Except PErr MMap :=
  registerFullName m (trimS (decodeHtmlEntities raw))

/-- Moniker lookup used by the week-table row handler (`src/extract.rs` lines
244-253): return the mapped full name when present and non-empty, otherwise
the moniker unchanged. -/
def resolveMoniker (m : MMap) (moniker : String) : String :=
  match mapGet m moniker with
  | some full_name => if full_name = "" then moniker else full_name
  | none => moniker

/-! ## The week-table row-close handler

`tr.on_end_tag` in the `WeekTable` arm, `src/extract.rs` lines 205-302.
Returns the updated `WeekState` together with the list of rows pushed to the
output (zero or one). -/

def weekRowClose (series : Nat) (map : MMap) (row : WeekState) :
    Except PErr (WeekState × List Row) :=
  if row.state ≠ WeekExpect.EndRow then
    -- header row: no td elements were seen, only the couple block was opened
    if row.state = WeekExpect.Couple then
      Except.ok ({ row with state := WeekExpect.NewRow }, [])
    else Except.error (PErr.crash "assert row.state == WeekExpect::Couple")
  else if row.couple.data = [] then Except.error (PErr.crash "assert couple.len > 0")
  else if row.couple_uses = 0 then Except.error (PErr.crash "assert couple_uses > 0")
  else if row.score.data = [] then Except.error (PErr.crash "assert score.len > 0")
  else if row.score_uses = 0 then Except.error (PErr.crash "assert score_uses > 0")
  else if row.dance.data = [] then Except.error (PErr.crash "assert dance.len > 0")
  else if row.dance_uses = 0 then Except.error (PErr.crash "assert dance_uses > 0")
  else
    let dance := trimS (decodeHtmlEntities row.dance)
    let couple := trimS (decodeHtmlEntities row.couple)
    let emitted : Except PErr (List Row) :=
      if couple.data = [] then Except.ok []
      else
        match splitOnS couple " & " with
        | [] => Except.error (PErr.crash "split returned nothing")
        | [_celeb_moniker] =>
          -- `i.next().unwrap()` for the professional fails: only one fragment
          Except.error (PErr.crash "professional unwrap()")
        | celeb_moniker :: professional :: more =>
          match more with
          | _ :: _ =>
            -- dance with multiple couples (three or more " & " fragments): ignore
            Except.ok []
          | [] =>
            let celebrity := resolveMoniker map celeb_moniker
            let scores := decodeHtmlEntities row.score
            let toks := splitWhitespaceS (trimS scores)
            match parseU8? (toks.headD "N/A") with
            | none =>
              -- e.g. "N/A" for an unscored show dance: ignore this row
              Except.ok []
            | some total_score =>
              match toks with
              | _ :: second :: _ =>
                -- `count() as u8` truncates; the `+ 1` is u8 addition whose
                -- overflow (count % 256 = 255) cannot emit a row: the average
                -- then fails the 1.0 ≤ avg assertion below, aborting just as
                -- the debug-build add overflow does.
                let score_count := countCommas second % 256 + 1
                let avg_score : ℚ := (total_score : ℚ) / (score_count : ℚ)
                -- `assert!(avg_score >= 1.0)` and `assert!(avg_score <= 10.0)`:
                -- since score_count ≥ 1, the comparisons avg_score < 1 and
                -- 10 < avg_score are written in the equivalent integer form
                -- total_score < score_count and 10 * score_count < total_score.
                if total_score < score_count then
                  Except.error (PErr.crash "assert avg_score >= 1.0")
                else if 10 * score_count < total_score then
                  Except.error (PErr.crash "assert avg_score <= 10.0")
                else
                  Except.ok [⟨series, row.week, celebrity, professional, dance,
                    total_score, score_count, avg_score, row.note⟩]
              | _ =>
                -- `i.next().unwrap()` for the judges' scores token fails
                Except.error (PErr.crash "judges scores unwrap()")
    match emitted with
    | Except.error e => Except.error e
    | Except.ok rows =>
      Except.ok ({ row with
        couple_uses := row.couple_uses - 1,
        score_uses := row.score_uses - 1,
        dance_uses := row.dance_uses - 1,
        state := WeekExpect.NewRow }, rows)

/-! ## The event stream and the remaining handlers

A document is modelled as the list of events the `lol_html` rewriter delivers
to the handlers of `extract_rows`: `span.mw-headline` elements (with their
`id` attribute), `tr`/`td` element opens and closes, and text chunks inside
`td` cells.  `tdText` carries `inSub = true` when the chunk originates inside
a sub-element of the cell (the `text!("td *")` handler marks those chunks via
user data and the week-table text handler skips them; the couples-table
handler keeps them). -/

inductive Event
  | headline (id : Option String)
  | trOpen
  | trClose
  | tdOpen (rowspan : Option String)
  | tdClose
  | tdText (s : String) (inSub : Bool)
deriving DecidableEq, Repr

/-- Which `tr.on_end_tag` closure (if any) is registered for the currently
open `tr` element. -/
inductive TrEnd
  | couples
  | week
deriving DecidableEq, Repr

/-- Which `td.on_end_tag` closure (if any) is registered for the currently
open `td` element. -/
inductive TdEnd
  | couplesCeleb
  | weekCouple
  | weekScore
  | weekDance
deriving DecidableEq, Repr

/-- The full mutable state of the parse: the shared `state` cell, the moniker
map, the output vector, and the end-tag closures currently registered. -/
structure PState where
  st : State
  map : MMap
  out : List Row
  pendingTr : Option TrEnd
  pendingTd : Option TdEnd
deriving DecidableEq, Repr

def initState : PState := ⟨State.Unrecognized, [], [], none, none⟩

/-- The `span.mw-headline` element handler (`src/extract.rs` lines 95-113).
It first resets the context to `Unrecognized`, then switches to a couples or
week context when the `id` matches; a label whose first `'_'`/`':'`-separated
part is `"Week"` but which lacks a parseable week number is a fatal error.
The new context does not depend on the previous one.  `weekFromParts` is the
parse of the week number (`parts.next().ok_or_else(..)?.parse()?`): no part
after `"Week"` or an unparseable part is a fatal error. -/
def weekFromParts (id : String) : List String → Except PErr State
  | [] => Except.error (PErr.fatalErr ("Bad parse " ++ id))
  | w :: _ =>
    match parseU16? w with
    | some week => Except.ok (State.WeekTable (WeekState.new_for_week week))
    | none => Except.error (PErr.fatalErr ("week number parse " ++ id))

def headlineHandler : Option String → Except PErr State
  | none => Except.ok State.Unrecognized
  | some id =>
    if id = "Couples" then Except.ok (State.CouplesTable CoupleState.dflt)
    else
      match splitPredS id (fun c => c = '_' || c = ':') with
      | "Week" :: rest => weekFromParts id rest
      | _ => Except.ok State.Unrecognized

/-- The `tr` element (open) handler, `src/extract.rs` lines 114-204 up to the
`on_end_tag` registrations. -/
def trOpenHandler (s : PState) : Except PErr PState :=
  match s.st with
  | State.Unrecognized => Except.ok { s with pendingTr := none }
  | State.CouplesTable row =>
    match row.state with
    | CoupleExpect.NewRow =>
      Except.ok { s with
        st := State.CouplesTable { row with state := CoupleExpect.Celebrity },
        pendingTr := some TrEnd.couples }
    | _ => Except.error (PErr.crash "Unexpected state")
  | State.WeekTable row =>
    match row.state with
    | WeekExpect.NewRow =>
      let next :=
        if row.couple_uses = 0 then WeekExpect.Couple
        else if row.score_uses = 0 then WeekExpect.Score
        else if row.dance_uses = 0 then WeekExpect.Dance
        else WeekExpect.EndRow
      Except.ok { s with
        st := State.WeekTable { row with state := next },
        pendingTr := some TrEnd.week }
    | _ => Except.error (PErr.crash "Unexpected state")

/-- The `tr` end-tag handler: run whichever closure was registered at the
`tr` open. -/
def trCloseHandler (series : Nat) (s : PState) : Except PErr PState :=
  match s.pendingTr with
  | none => Except.ok s
  | some TrEnd.couples =>
    match s.st with
    | State.CouplesTable row =>
      match registerCelebrity s.map row.celebrity with
      | Except.error e => Except.error e
      | Except.ok m =>
        Except.ok { s with
          st := State.CouplesTable CoupleState.dflt,
          map := m, pendingTr := none }
    | _ => Except.error (PErr.crash "Unexpected state")
  | some TrEnd.week =>
    match s.st with
    | State.WeekTable row =>
      match weekRowClose series s.map row with
      | Except.error e => Except.error e
      | Except.ok (row', rows) =>
        Except.ok { s with
          st := State.WeekTable row',
          out := s.out ++ rows, pendingTr := none }
    | _ => Except.error (PErr.crash "Unexpected state")

/-- The `td` element (open) handler, `src/extract.rs` lines 307-425 up to the
`on_end_tag` registrations.  A malformed `rowspan` attribute is fatal (the
`parse()?`). -/
def tdOpenHandler (s : PState) (rowspan? : Option String) : Except PErr PState :=
  match s.st with
  | State.Unrecognized => Except.ok { s with pendingTd := none }
  | State.CouplesTable row =>
    match row.state with
    | CoupleExpect.Celebrity => Except.ok { s with pendingTd := some TdEnd.couplesCeleb }
    | _ => Except.ok { s with pendingTd := none }
  | State.WeekTable row =>
    let rows? : Except PErr Nat :=
      match rowspan? with
      | some r =>
        match parseU8? r with
        | some n => Except.ok n
        | none => Except.error (PErr.fatalErr ("rowspan parse " ++ r))
      | none => Except.ok 1
    match rows? with
    | Except.error e => Except.error e
    | Except.ok rows =>
      match row.state with
      | WeekExpect.Couple =>
        Except.ok { s with
          st := State.WeekTable { row with couple := "", couple_uses := rows },
          pendingTd := some TdEnd.weekCouple }
      | WeekExpect.Score =>
        -- rowspan > 1 on a score cell marks the combined-dance week
        let note := if 1 < rows then "combined dance" else ""
        Except.ok { s with
          st := State.WeekTable { row with score := "", score_uses := rows, note := note },
          pendingTd := some TdEnd.weekScore }
      | WeekExpect.Dance =>
        Except.ok { s with
          st := State.WeekTable { row with dance := "", dance_uses := rows },
          pendingTd := some TdEnd.weekDance }
      | WeekExpect.EndRow =>
        -- skip remaining columns
        Except.ok { s with pendingTd := none }
      | WeekExpect.NewRow => Except.error (PErr.crash "Unexpected state")

/-- The `td` end-tag handler: run whichever closure was registered at the
`td` open. -/
def tdCloseHandler (s : PState) : Except PErr PState :=
  match s.pendingTd with
  | none => Except.ok s
  | some TdEnd.couplesCeleb =>
    match s.st with
    | State.CouplesTable row =>
      match row.state with
      | CoupleExpect.Celebrity =>
        Except.ok { s with
          st := State.CouplesTable { row with state := CoupleExpect.EndRow },
          pendingTd := none }
      | CoupleExpect.EndRow =>
        Except.ok { s with
          st := State.CouplesTable { row with state := CoupleExpect.EndRow },
          pendingTd := none }
      | _ => Except.error (PErr.crash "Unexpected state")
    | _ => Except.error (PErr.crash "Unexpected state")
  | some TdEnd.weekCouple =>
    match s.st with
    | State.WeekTable row =>
      let next :=
        if row.score_uses = 0 then WeekExpect.Score
        else if row.dance_uses = 0 then WeekExpect.Dance
        else WeekExpect.EndRow
      Except.ok { s with st := State.WeekTable { row with state := next }, pendingTd := none }
    | _ => Except.error (PErr.crash "Unexpected state")
  | some TdEnd.weekScore =>
    match s.st with
    | State.WeekTable row =>
      let next := if row.dance_uses = 0 then WeekExpect.Dance else WeekExpect.EndRow
      Except.ok { s with st := State.WeekTable { row with state := next }, pendingTd := none }
    | _ => Except.error (PErr.crash "Unexpected state")
  | some TdEnd.weekDance =>
    match s.st with
    | State.WeekTable row =>
      Except.ok { s with
        st := State.WeekTable { row with state := WeekExpect.EndRow },
        pendingTd := none }
    | _ => Except.error (PErr.crash "Unexpected state")

/-- The `td` text handlers (`text!("td *")` and `text!("td")`,
`src/extract.rs` lines 426-472): accumulate cell text into the buffer the
automaton currently expects.  Week tables skip text inside sub-elements
(footnote markers); the couples table keeps it (names sit inside `a`
elements). -/
def tdTextHandler (s : PState) (t : String) (inSub : Bool) : Except PErr PState :=
  match s.st with
  | State.Unrecognized => Except.ok s
  | State.CouplesTable row =>
    match row.state with
    | CoupleExpect.Celebrity =>
      Except.ok { s with st := State.CouplesTable { row with celebrity := row.celebrity ++ t } }
    | _ => Except.ok s
  | State.WeekTable row =>
    if inSub then Except.ok s
    else
      match row.state with
      | WeekExpect.Couple =>
        Except.ok { s with st := State.WeekTable { row with couple := row.couple ++ t } }
      | WeekExpect.Score =>
        Except.ok { s with st := State.WeekTable { row with score := row.score ++ t } }
      | WeekExpect.Dance =>
        Except.ok { s with st := State.WeekTable { row with dance := row.dance ++ t } }
      | _ => Except.ok s

def handleEvent (series : Nat) (s : PState) : Event → Except PErr PState
  | Event.headline id? =>
    match headlineHandler id? with
    | Except.error e => Except.error e
    | Except.ok st' => Except.ok { s with st := st' }
  | Event.trOpen => trOpenHandler s
  | Event.trClose => trCloseHandler series s
  | Event.tdOpen r => tdOpenHandler s r
  | Event.tdClose => tdCloseHandler s
  | Event.tdText t b => tdTextHandler s t b

def runEvents (series : Nat) (s : PState) : List Event → Except PErr PState
  | [] => Except.ok s
  | e :: rest =>
    match handleEvent series s e with
    | Except.error err => Except.error err
    | Except.ok s' => runEvents series s' rest

/-- Model of `extract_rows` of `src/extract.rs` over the event stream of one document:
either the ordered list of all emitted rows, or the first abort.  An error
returns no rows at all (the output vector is dropped). -/
def extract_rows (series : Nat) (evts : List Event) : Except PErr (List Row) :=
  match runEvents series initState evts with
  | Except.error e => Except.error e
  | Except.ok s => Except.ok s.out

/-! ## Spec-modelled components

The specification (§4.2 group dances, §4.4 anomaly override) describes two
mechanisms that are not present in the `src/extract.rs` snapshot: the
semicolon field-separator handling for group dances, and the fixed-record
override for the one historically incompatible week.  The definitions below
are modelled from the spec's words, as marked. -/

/-- Modelled from the spec: the fixed, literal override record set of §4.4
for the designated historical anomaly week (the single week in which couples
performed two dance styles under one combined score — series 10, week 10 per
the combined-dance comment in `src/extract.rs`).  The spec does not enumerate
the literal values, so representative literals stand in: one record per
couple and dance style, the two styles of a couple sharing one score, each
with an explanatory note. -/
def overrideRows : List Row :=
  [⟨10, 10, "Celebrity One", "Professional One", "First Style", 32, 4, (32 : ℚ) / 4,
     "combined dance"⟩,
   ⟨10, 10, "Celebrity One", "Professional One", "Second Style", 32, 4, (32 : ℚ) / 4,
     "combined dance"⟩,
   ⟨10, 10, "Celebrity Two", "Professional Two", "First Style", 36, 4, (36 : ℚ) / 4,
     "combined dance"⟩,
   ⟨10, 10, "Celebrity Two", "Professional Two", "Second Style", 36, 4, (36 : ℚ) / 4,
     "combined dance"⟩]

/-- Modelled from the spec: the §4.4 override keying — the fixed record set
applies exactly when the season/week pair is the designated anomaly pair and
never otherwise. -/
def weekOverride (series week : Nat) : Option (List Row) :=
  if series = 10 ∧ week = 10 then some overrideRows else none

/-- Modelled from the spec: processing of one week section.  For the
designated anomaly pair the Section Router is bypassed and the fixed record
list is emitted directly, without looking at the section's events; any other
pair runs the general week automaton over the section's events. -/
def processWeekSection (series week : Nat) (m : MMap) (evts : List Event) :
    Except PErr (List Row) :=
  match weekOverride series week with
  | some rows => Except.ok rows
  | none =>
    match runEvents series ⟨State.WeekTable (WeekState.new_for_week week), m, [], none, none⟩ evts with
    | Except.error e => Except.error e
    | Except.ok s => Except.ok s.out

/-- Modelled from the spec (§4.2): a split score list encodes rank placings
rather than judge totals when every entry is a rank-like integer and the
first equals `"1"`; `"small rank-like integer"` is modelled as: the trimmed
entry parses as a natural number. -/
def isPlacings (scores : List String) : Bool :=
  scores.all (fun sc => (parseNatChars? (trimS sc).data).isSome) &&
    (match scores with
     | sc :: _ => parseNatChars? (trimS sc).data == some 1
     | [] => true)

/-- Modelled from the spec (§4.2): one group-dance couple entry.  The
performer's moniker (the fragment before `" & "`) is resolved through the
Moniker Resolver; the score is parsed as the whole numeric value; the record
carries score-count 1, average equal to the score itself and note
`"group dance"`. -/
def groupCoupleRecord (series week : Nat) (m : MMap) (dance p sc : String) : Option Row :=
  match parseNatChars? (trimS sc).data with
  | none => none
  | some n =>
    let frags := splitOnS (trimS p) " & "
    let celebrity := resolveMoniker m (frags.headD "")
    let professional := (frags.drop 1).headD ""
    some ⟨series, week, celebrity, professional, dance, n, 1, (n : ℚ), "group dance"⟩

/-- Modelled from the spec (§4.2): the group-dance branch of row completion —
the partner-cell text containing the field-separator marker `";"` is split,
in parallel with the score text, into per-couple entries; a placings-encoded
score list emits nothing, otherwise partner entries are zipped with score
entries and one record is emitted per pair. -/
def groupDanceRecords (series week : Nat) (m : MMap) (coupleText scoreText dance : String) :
    List Row :=
  let ps := splitOnS coupleText ";"
  let ss := splitOnS scoreText ";"
  if isPlacings ss then []
  else (ps.zip ss).filterMap (fun pr => groupCoupleRecord series week m dance pr.1 pr.2)

/-! ## Predicates on heading labels -/

/-- The heading label's first `'_'`/`':'`-separated part is `"Week"`:
the label is treated as a week heading by `headlineHandler`. -/
def weekLabeled (id : String) : Bool :=
  match splitPredS id (fun c => c = '_' || c = ':') with
  | "Week" :: _ => true
  | _ => false

/-- The heading label starts with the week prefix but lacks a parseable week
number: either no second part, or a second part that does not parse as a
`u16`.  On such a label `headlineHandler` is fatal. -/
def weekPartsBad : List String → Bool
  | [] => true
  | w :: _ => (parseU16? w).isNone

def weekHeadingBad (id : String) : Bool :=
  match splitPredS id (fun c => c = '_' || c = ':') with
  | "Week" :: rest => weekPartsBad rest
  | _ => false

/-! ## Helper lemmas on the moniker map -/

theorem mapGet_mapInsert_self (m : MMap) (k v : String) :
    mapGet (mapInsert m k v) k = some v := by
  induction m with
  | nil => simp [mapInsert, mapGet]
  | cons kv rest ih =>
    obtain ⟨k', v'⟩ := kv
    by_cases h : k' = k
    · simp [mapInsert, mapGet, h]
    · simp [mapInsert, mapGet, h, ih]

theorem mapGet_mapInsert_ne (m : MMap) (k k' v : String) (h : k' ≠ k) :
    mapGet (mapInsert m k' v) k = mapGet m k := by
  induction m with
  | nil => simp [mapInsert, mapGet, h]
  | cons kv rest ih =>
    obtain ⟨ka, va⟩ := kv
    by_cases ha : ka = k'
    · subst ha
      simp [mapInsert, mapGet, h]
    · simp [mapInsert, mapGet, ha, ih]

/-! ## The claims -/

/-- C5: after scanning a roster in which two performers share the first name
"Emma", looking up the moniker "Emma" returns the string "Emma" unchanged —
neither performer's full name; after scanning a roster with the single
performer "Alex Smith", looking up "Alex" returns "Alex Smith". -/
theorem c5_roster_lookup_examples :
    Except.map (fun m => resolveMoniker m "Emma")
      (Except.bind (registerCelebrity [] "Emma Barton")
        (fun m => registerCelebrity m "Emma Weymouth")) = Except.ok "Emma" ∧
    "Emma" ≠ "Emma Barton" ∧ "Emma" ≠ "Emma Weymouth" ∧
    Except.map (fun m => resolveMoniker m "Alex")
      (registerCelebrity [] "Alex Smith") = Except.ok "Alex Smith" :=
  ⟨rfl, by decide, by decide, rfl⟩

/-- C6: registration through the `add` closure maps an unregistered moniker
to the full name; a moniker registered to a different full name is
overwritten with the empty-string ambiguous sentinel; and once a moniker is
mapped to the sentinel, no sequence of subsequent `add` registrations ever
changes it back to a non-empty name. -/
theorem c6_moniker_registration :
    (∀ (m : MMap) (k v : String), mapGet m k = none →
      mapGet (addMoniker m k v) k = some v) ∧
    (∀ (m : MMap) (k v w : String), mapGet m k = some w → w ≠ v →
      mapGet (addMoniker m k v) k = some "") ∧
    (∀ (m : MMap) (k : String) (ops : List (String × String)), mapGet m k = some "" →
      mapGet (ops.foldl (fun acc p => addMoniker acc p.1 p.2) m) k = some "") := by
  refine ⟨?_, ?_, ?_⟩
  · intro m k v h
    unfold addMoniker
    rw [h]
    exact mapGet_mapInsert_self m k v
  · intro m k v w h _
    unfold addMoniker
    rw [h]
    exact mapGet_mapInsert_self m k ""
  · intro m k ops
    induction ops generalizing m with
    | nil => intro h; exact h
    | cons p rest ih =>
      intro h
      simp only [List.foldl_cons]
      apply ih
      by_cases hk : p.1 = k
      · subst hk
        unfold addMoniker
        rw [h]
        exact mapGet_mapInsert_self m p.1 ""
      · unfold addMoniker
        cases mapGet m p.1 with
        | none => rw [mapGet_mapInsert_ne m k p.1 p.2 hk]; exact h
        | some w => rw [mapGet_mapInsert_ne m k p.1 "" hk]; exact h

/-- Witness for C6 at concrete inputs: a fresh moniker maps to the full name;
a colliding moniker becomes the ambiguous sentinel; the sentinel survives a
later registration of the same moniker. -/
theorem c6_moniker_registration_witness :
    mapGet (addMoniker [] "Alex" "Alex Smith") "Alex" = some "Alex Smith" ∧
    mapGet (addMoniker [("Emma", "Emma Barton")] "Emma" "Emma Weymouth") "Emma" = some "" ∧
    mapGet (List.foldl (fun acc p => addMoniker acc p.1 p.2)
      [("Ricky", "")] [("Ricky", "Ricky Whittle")]) "Ricky" = some "" :=
  ⟨c6_moniker_registration.1 [] "Alex" "Alex Smith" rfl,
   c6_moniker_registration.2.1 [("Emma", "Emma Barton")] "Emma" "Emma Weymouth"
     "Emma Barton" rfl (by decide),
   c6_moniker_registration.2.2 [("Ricky", "")] "Ricky" [("Ricky", "Ricky Whittle")] rfl⟩

/-- C3 counterexample: a "Night"-style sub-heading encountered while a week
automaton is active does not leave the context unchanged — the heading
handler resets it to `Unrecognized`, discarding the active week automaton
(there is no retained-context slot to restore from). -/
theorem c3_counterexample :
    handleEvent 17 ⟨State.WeekTable (WeekState.new_for_week 5), [], [], none, none⟩
      (Event.headline (some "Night_2")) =
      Except.ok ⟨State.Unrecognized, [], [], none, none⟩ ∧
    State.Unrecognized ≠ State.WeekTable (WeekState.new_for_week 5) :=
  ⟨rfl, by decide⟩

/-- C3 (amended): every heading whose label is neither `"Couples"` nor a
week label (first `'_'`/`':'`-separated part `"Week"`) — in particular any
"Night"/"Show" sub-heading — sets the active context to `Unrecognized`
regardless of the previous context; there is no retained previous context to
restore. -/
theorem c3_heading_resets_context (series : Nat) (s : PState) (id : String)
    (hC : id ≠ "Couples") (hW : weekLabeled id = false) :
    handleEvent series s (Event.headline (some id)) =
      Except.ok { s with st := State.Unrecognized } := by
  have h1 : headlineHandler (some id) = Except.ok State.Unrecognized := by
    simp only [headlineHandler]
    rw [if_neg hC]
    unfold weekLabeled at hW
    split
    · rename_i rest heq
      rw [heq] at hW
      simp at hW
    · rfl
  simp only [handleEvent, h1]

/-- Witness for the amended C3: a concrete "Show" sub-heading inside week 5
resets the context to `Unrecognized`. -/
theorem c3_heading_resets_context_witness :
    handleEvent 17 ⟨State.WeekTable (WeekState.new_for_week 5), [], [], none, none⟩
      (Event.headline (some "Show_1")) =
      Except.ok ⟨State.Unrecognized, [], [], none, none⟩ :=
  c3_heading_resets_context 17 ⟨State.WeekTable (WeekState.new_for_week 5), [], [], none, none⟩
    "Show_1" (by decide) (by decide)

theorem headlineHandler_error_of_bad (id : String) (h : weekHeadingBad id = true) :
    ∃ e, headlineHandler (some id) = Except.error e := by
  have hC : id ≠ "Couples" := by
    intro hc
    subst hc
    exact absurd h (by decide)
  simp only [headlineHandler]
  rw [if_neg hC]
  unfold weekHeadingBad at h
  split at h
  · rename_i rest heq
    cases rest with
    | nil => exact ⟨_, rfl⟩
    | cons w ws =>
      simp only [weekPartsBad] at h
      simp only [weekFromParts]
      cases hp : parseU16? w with
      | none => exact ⟨_, rfl⟩
      | some n => rw [hp] at h; simp at h
  · simp at h

theorem runEvents_error_of_badWeek (series : Nat) (id : String)
    (hbad : weekHeadingBad id = true) :
    ∀ (evts : List Event) (s : PState), Event.headline (some id) ∈ evts →
      ∃ e, runEvents series s evts = Except.error e := by
  intro evts
  induction evts with
  | nil => intro s hmem; simp at hmem
  | cons e rest ih =>
    intro s hmem
    rcases List.mem_cons.mp hmem with hhead | htail
    · obtain ⟨er, her⟩ := headlineHandler_error_of_bad id hbad
      refine ⟨er, ?_⟩
      rw [← hhead]
      unfold runEvents
      simp only [handleEvent, her]
    · cases hh : handleEvent series s e with
      | error er =>
        refine ⟨er, ?_⟩
        unfold runEvents
        rw [hh]
      | ok s' =>
        obtain ⟨er, her⟩ := ih s' htail
        refine ⟨er, ?_⟩
        unfold runEvents
        rw [hh]
        exact her

/-- C9: any document containing a heading label that begins with the week
prefix but lacks a parseable week number makes the whole parse fail with an
error; the `Except` result then carries no records, so partial output is
never returned on failure. -/
theorem c9_bad_week_heading_fatal (series : Nat) (evts : List Event) (id : String)
    (hmem : Event.headline (some id) ∈ evts) (hbad : weekHeadingBad id = true) :
    ∃ e, extract_rows series evts = Except.error e := by
  obtain ⟨er, her⟩ := runEvents_error_of_badWeek series id hbad evts initState hmem
  refine ⟨er, ?_⟩
  unfold extract_rows
  rw [her]

/-- Witness for C9: a document holding the unnumbered heading `"Week"` (and
a heading `"Week_final"` whose week part is not a number) fails. -/
theorem c9_bad_week_heading_fatal_witness :
    ∃ e, extract_rows 3 [Event.trOpen, Event.headline (some "Week_final"), Event.trClose] =
      Except.error e :=
  c9_bad_week_heading_fatal 3 [Event.trOpen, Event.headline (some "Week_final"), Event.trClose]
    "Week_final" (by decide) (by decide)

/-- C1: for the designated historical anomaly season/week pair the week
section yields exactly the fixed, literal override record set — whatever the
surrounding table events are, malformed or not — and the override is never
applied for any other season/week pair. -/
theorem c1_anomaly_override :
    (∀ (m : MMap) (evts : List Event),
      processWeekSection 10 10 m evts = Except.ok overrideRows) ∧
    (∀ series week, ¬(series = 10 ∧ week = 10) → weekOverride series week = none) := by
  constructor
  · intro m evts
    rfl
  · intro series week h
    unfold weekOverride
    rw [if_neg h]

/-- Witness for C1: the override fires on the anomaly pair even over a
malformed event stream, and stays off for a different pair. -/
theorem c1_anomaly_override_witness :
    processWeekSection 10 10 [] [Event.trClose, Event.tdClose, Event.tdOpen (some "oops")] =
      Except.ok overrideRows ∧
    weekOverride 7 11 = none :=
  ⟨c1_anomaly_override.1 [] [Event.trClose, Event.tdClose, Event.tdOpen (some "oops")],
   c1_anomaly_override.2 7 11 (by decide)⟩

theorem filterMap_length_of_isSome {α β : Type} (f : α → Option β) :
    ∀ (l : List α), (∀ a ∈ l, (f a).isSome) → (l.filterMap f).length = l.length := by
  intro l
  induction l with
  | nil => intro _; rfl
  | cons a rest ih =>
    intro h
    have ha := h a (List.mem_cons_self a rest)
    cases hf : f a with
    | none => rw [hf] at ha; simp at ha
    | some b =>
      rw [List.filterMap_cons_some hf]
      simp only [List.length_cons]
      rw [ih (fun x hx => h x (List.mem_cons_of_mem a hx))]

/-- C2: each record emitted for a group dance (a partner cell packing
several couples, split on the marker in parallel with the score cell)
carries score-count 1, average equal to that couple's whole score and note
"group dance"; with parseable judge-total scores one record is emitted per
zipped couple/score pair; the cell "8;7;9" against three couples yields
exactly three records, while the placings cell "1;2;3;4" yields none. -/
theorem c2_group_dance :
    (∀ (series week : Nat) (m : MMap) (ct sct d : String) (r : Row),
      r ∈ groupDanceRecords series week m ct sct d →
      r.score_count = 1 ∧ r.note = "group dance" ∧ r.avg_score = (r.total_score : ℚ)) ∧
    (∀ (series week : Nat) (m : MMap) (ct sct d : String),
      isPlacings (splitOnS sct ";") = false →
      (∀ sc ∈ splitOnS sct ";", (parseNatChars? (trimS sc).data).isSome) →
      (groupDanceRecords series week m ct sct d).length =
        ((splitOnS ct ";").zip (splitOnS sct ";")).length) ∧
    (groupDanceRecords 7 11 [] "A & P;B & Q;C & R" "8;7;9" "Group Mambo").length = 3 ∧
    groupDanceRecords 7 11 [] "A & P;B & Q;C & R" "1;2;3;4" "Group Mambo" = [] := by
  refine ⟨?_, ?_, rfl, rfl⟩
  · intro series week m ct sct d r hr
    unfold groupDanceRecords at hr
    by_cases hpl : isPlacings (splitOnS sct ";")
    · simp [hpl] at hr
    · simp only [hpl, if_neg, Bool.false_eq_true, not_false_eq_true, ite_false] at hr
      simp only [List.mem_filterMap] at hr
      obtain ⟨pr, _, hrec⟩ := hr
      unfold groupCoupleRecord at hrec
      cases hp : parseNatChars? (trimS pr.2).data with
      | none => rw [hp] at hrec; simp at hrec
      | some n =>
        rw [hp] at hrec
        simp only [Option.some.injEq] at hrec
        subst hrec
        exact ⟨rfl, rfl, rfl⟩
  · intro series week m ct sct d hpl hall
    unfold groupDanceRecords
    simp only [hpl, Bool.false_eq_true, not_false_eq_true, ite_false, if_neg]
    apply filterMap_length_of_isSome
    intro pr hpr
    have hsc := (List.of_mem_zip hpr).2
    unfold groupCoupleRecord
    cases hp : parseNatChars? (trimS pr.2).data with
    | none =>
      have := hall pr.2 hsc
      rw [hp] at this
      simp at this
    | some n => rfl

/-- Witness for C2: the general parts applied at the three-couple group
dance with judge totals "8;7;9". -/
theorem c2_group_dance_witness :
    ((⟨7, 11, "A", "P", "Group Mambo", 8, 1, ((8 : Nat) : ℚ), "group dance"⟩ : Row).score_count = 1 ∧
      (⟨7, 11, "A", "P", "Group Mambo", 8, 1, ((8 : Nat) : ℚ), "group dance"⟩ : Row).note = "group dance" ∧
      (⟨7, 11, "A", "P", "Group Mambo", 8, 1, ((8 : Nat) : ℚ), "group dance"⟩ : Row).avg_score =
        (((⟨7, 11, "A", "P", "Group Mambo", 8, 1, ((8 : Nat) : ℚ), "group dance"⟩ : Row).total_score : Nat) : ℚ)) ∧
    (groupDanceRecords 7 11 [] "A & P;B & Q;C & R" "8;7;9" "Group Mambo").length =
      ((splitOnS "A & P;B & Q;C & R" ";").zip (splitOnS "8;7;9" ";")).length :=
  ⟨c2_group_dance.1 7 11 [] "A & P;B & Q;C & R" "8;7;9" "Group Mambo"
      ⟨7, 11, "A", "P", "Group Mambo", 8, 1, ((8 : Nat) : ℚ), "group dance"⟩ (by decide),
   c2_group_dance.2.1 7 11 [] "A & P;B & Q;C & R" "8;7;9" "Group Mambo" (by decide) (by decide)⟩

/-- C4: a completed single-couple episode row whose decoded score text is
"<total> <judge scores>" with the leading token parsing as an integer (and
the derived average within the asserted [1, 10] band) emits exactly one
record with that total, judge count 1 + the number of commas in the second
token, and average equal to total divided by judge count. -/
theorem c4_single_couple_score (series : Nat) (map : MMap) (row : WeekState)
    (celeb prof t0 second : String) (toks2 : List String) (n : Nat)
    (hstate : row.state = WeekExpect.EndRow)
    (hc : row.couple.data ≠ []) (hcu : row.couple_uses ≠ 0)
    (hs : row.score.data ≠ []) (hsu : row.score_uses ≠ 0)
    (hd : row.dance.data ≠ []) (hdu : row.dance_uses ≠ 0)
    (hcouple : splitOnS (trimS (decodeHtmlEntities row.couple)) " & " = [celeb, prof])
    (htoks : splitWhitespaceS (trimS (decodeHtmlEntities row.score)) = t0 :: second :: toks2)
    (hparse : parseU8? t0 = some n)
    (hcommas : countCommas second < 255)
    (hlow : countCommas second + 1 ≤ n)
    (hhigh : n ≤ 10 * (countCommas second + 1)) :
    weekRowClose series map row =
      Except.ok ({ row with
        couple_uses := row.couple_uses - 1,
        score_uses := row.score_uses - 1,
        dance_uses := row.dance_uses - 1,
        state := WeekExpect.NewRow },
       [⟨series, row.week, resolveMoniker map celeb, prof,
         trimS (decodeHtmlEntities row.dance), n, countCommas second + 1,
         (n : ℚ) / ((countCommas second + 1 : Nat) : ℚ), row.note⟩]) := by
  have hmod : countCommas second % 256 = countCommas second := Nat.mod_eq_of_lt (by omega)
  have hcne : (trimS (decodeHtmlEntities row.couple)).data ≠ [] := by
    intro h0
    have h0' : splitOnS (trimS (decodeHtmlEntities row.couple)) " & " = [""] := by
      unfold splitOnS splitOnChars
      rw [h0]
      rfl
    rw [hcouple] at h0'
    simp at h0'
  unfold weekRowClose
  rw [hstate]
  rw [if_neg (by simp)]
  rw [if_neg hc, if_neg hcu, if_neg hs, if_neg hsu, if_neg hd, if_neg hdu]
  simp only []
  rw [if_neg hcne, hcouple, htoks]
  simp only [List.headD]
  rw [hparse, hmod]
  simp only []
  rw [if_neg (by omega : ¬ n < countCommas second + 1)]
  rw [if_neg (by omega : ¬ 10 * (countCommas second + 1) < n)]

/-- Witness for C4: the score cell "32 (8,8,8,8)" yields exactly one record
with total score 32, judge count 4 and average 32 / 4 (= 8). -/
theorem c4_single_couple_score_witness :
    weekRowClose 1 [] ⟨WeekExpect.EndRow, 5, "Anton & Erin", 1, "32 (8,8,8,8)", 1, "Waltz", 1, ""⟩ =
      Except.ok (⟨WeekExpect.NewRow, 5, "Anton & Erin", 0, "32 (8,8,8,8)", 0, "Waltz", 0, ""⟩,
        [⟨1, 5, "Anton", "Erin", "Waltz", 32, 4, (32 : ℚ) / 4, ""⟩]) :=
  c4_single_couple_score 1 []
    ⟨WeekExpect.EndRow, 5, "Anton & Erin", 1, "32 (8,8,8,8)", 1, "Waltz", 1, ""⟩
    "Anton" "Erin" "32" "(8,8,8,8)" [] 32 rfl (by decide) (by decide) (by decide) (by decide)
    (by decide) (by decide) (by decide) (by decide) rfl (by decide) (by decide) (by decide)

/-- C7: a completed episode row whose score cell's leading token does not
parse as an integer (with the partner cell either empty after trimming or a
well-formed couple list) emits zero records and the handler returns
successfully, so parsing continues with the rest of the document. -/
theorem c7_unparseable_score_skipped (series : Nat) (map : MMap) (row : WeekState)
    (hstate : row.state = WeekExpect.EndRow)
    (hc : row.couple.data ≠ []) (hcu : row.couple_uses ≠ 0)
    (hs : row.score.data ≠ []) (hsu : row.score_uses ≠ 0)
    (hd : row.dance.data ≠ []) (hdu : row.dance_uses ≠ 0)
    (hcouple : (trimS (decodeHtmlEntities row.couple)).data = [] ∨
      2 ≤ (splitOnS (trimS (decodeHtmlEntities row.couple)) " & ").length)
    (hbad : parseU8? ((splitWhitespaceS (trimS (decodeHtmlEntities row.score))).headD "N/A") =
      none) :
    weekRowClose series map row =
      Except.ok ({ row with
        couple_uses := row.couple_uses - 1,
        score_uses := row.score_uses - 1,
        dance_uses := row.dance_uses - 1,
        state := WeekExpect.NewRow }, []) := by
  unfold weekRowClose
  rw [hstate]
  rw [if_neg (by simp)]
  rw [if_neg hc, if_neg hcu, if_neg hs, if_neg hsu, if_neg hd, if_neg hdu]
  simp only []
  rcases hcouple with hemp | hml
  · rw [if_pos hemp]
  · have hcne : (trimS (decodeHtmlEntities row.couple)).data ≠ [] := by
      intro h0
      have h0' : splitOnS (trimS (decodeHtmlEntities row.couple)) " & " = [""] := by
        unfold splitOnS splitOnChars
        rw [h0]
        rfl
      rw [h0'] at hml
      simp at hml
    rw [if_neg hcne]
    cases hsp : splitOnS (trimS (decodeHtmlEntities row.couple)) " & " with
    | nil => rw [hsp] at hml; simp at hml
    | cons a rest =>
      cases rest with
      | nil => rw [hsp] at hml; simp at hml
      | cons b more =>
        cases more with
        | nil => rw [hbad]
        | cons c rest2 => rfl

/-- Witness for C7: a score cell containing only "N/A" yields zero records
and the handler succeeds. -/
theorem c7_unparseable_score_skipped_witness :
    weekRowClose 1 [] ⟨WeekExpect.EndRow, 7, "A & B", 1, "N/A\n", 1, "Showdance", 1, ""⟩ =
      Except.ok (⟨WeekExpect.NewRow, 7, "A & B", 0, "N/A\n", 0, "Showdance", 0, ""⟩, []) :=
  c7_unparseable_score_skipped 1 []
    ⟨WeekExpect.EndRow, 7, "A & B", 1, "N/A\n", 1, "Showdance", 1, ""⟩
    rfl (by decide) (by decide) (by decide) (by decide) (by decide) (by decide)
    (by decide) (by decide)

/-- C8 counterexample: a completed row whose partner cell holds more than one
" & " separator (three couples) is not a fatal error — the handler returns
successfully with zero records and the parse goes on, contradicting the claim
that more than one separator aborts the whole parse. -/
theorem c8_counterexample :
    weekRowClose 7 [] ⟨WeekExpect.EndRow, 11, "A & B & C", 1, "32 (8,8,8,8)", 1, "Samba", 1, ""⟩ =
      Except.ok (⟨WeekExpect.NewRow, 11, "A & B & C", 0, "32 (8,8,8,8)", 0, "Samba", 0, ""⟩, []) ∧
    (weekRowClose 7 []
      ⟨WeekExpect.EndRow, 11, "A & B & C", 1, "32 (8,8,8,8)", 1, "Samba", 1, ""⟩).isOk = true :=
  ⟨rfl, rfl⟩

/-- C8 (amended): in the single-couple path a nonempty decoded partner cell
with zero " & " separators aborts the whole parse (the `unwrap()` on the
missing professional fragment panics), while a cell with more than one
separator is skipped — zero records, parsing continues. -/
theorem c8_couple_separator_behavior (series : Nat) (map : MMap) (row : WeekState)
    (hstate : row.state = WeekExpect.EndRow)
    (hc : row.couple.data ≠ []) (hcu : row.couple_uses ≠ 0)
    (hs : row.score.data ≠ []) (hsu : row.score_uses ≠ 0)
    (hd : row.dance.data ≠ []) (hdu : row.dance_uses ≠ 0) :
    ((trimS (decodeHtmlEntities row.couple)).data ≠ [] →
      (splitOnS (trimS (decodeHtmlEntities row.couple)) " & ").length = 1 →
      weekRowClose series map row = Except.error (PErr.crash "professional unwrap()")) ∧
    (3 ≤ (splitOnS (trimS (decodeHtmlEntities row.couple)) " & ").length →
      weekRowClose series map row =
        Except.ok ({ row with
          couple_uses := row.couple_uses - 1,
          score_uses := row.score_uses - 1,
          dance_uses := row.dance_uses - 1,
          state := WeekExpect.NewRow }, [])) := by
  constructor
  · intro hcne hone
    unfold weekRowClose
    rw [hstate]
    rw [if_neg (by simp)]
    rw [if_neg hc, if_neg hcu, if_neg hs, if_neg hsu, if_neg hd, if_neg hdu]
    simp only []
    rw [if_neg hcne]
    cases hsp : splitOnS (trimS (decodeHtmlEntities row.couple)) " & " with
    | nil => rw [hsp] at hone; simp at hone
    | cons a rest =>
      cases rest with
      | nil => rfl
      | cons b more => rw [hsp] at hone; simp at hone
  · intro hml
    have hcne : (trimS (decodeHtmlEntities row.couple)).data ≠ [] := by
      intro h0
      have h0' : splitOnS (trimS (decodeHtmlEntities row.couple)) " & " = [""] := by
        unfold splitOnS splitOnChars
        rw [h0]
        rfl
      rw [h0'] at hml
      simp at hml
    unfold weekRowClose
    rw [hstate]
    rw [if_neg (by simp)]
    rw [if_neg hc, if_neg hcu, if_neg hs, if_neg hsu, if_neg hd, if_neg hdu]
    simp only []
    rw [if_neg hcne]
    cases hsp : splitOnS (trimS (decodeHtmlEntities row.couple)) " & " with
    | nil => rw [hsp] at hml; simp at hml
    | cons a rest =>
      cases rest with
      | nil => rw [hsp] at hml; simp at hml
      | cons b more =>
        cases more with
        | nil => rw [hsp] at hml; simp at hml
        | cons c rest2 => rfl

/-- Witness for the amended C8: "Solo" (no separator) panics; "X & Y & Z & W"
(three separators) is skipped with zero records. -/
theorem c8_couple_separator_behavior_witness :
    weekRowClose 2 [] ⟨WeekExpect.EndRow, 3, "Solo", 1, "32 (8,8,8,8)", 1, "Waltz", 1, ""⟩ =
      Except.error (PErr.crash "professional unwrap()") ∧
    weekRowClose 2 [] ⟨WeekExpect.EndRow, 3, "X & Y & Z & W", 1, "32 (8,8,8,8)", 1, "Waltz", 1, ""⟩ =
      Except.ok (⟨WeekExpect.NewRow, 3, "X & Y & Z & W", 0, "32 (8,8,8,8)", 0, "Waltz", 0, ""⟩, []) :=
  ⟨(c8_couple_separator_behavior 2 []
      ⟨WeekExpect.EndRow, 3, "Solo", 1, "32 (8,8,8,8)", 1, "Waltz", 1, ""⟩
      rfl (by decide) (by decide) (by decide) (by decide) (by decide) (by decide)).1
      (by decide) (by decide),
   (c8_couple_separator_behavior 2 []
      ⟨WeekExpect.EndRow, 3, "X & Y & Z & W", 1, "32 (8,8,8,8)", 1, "Waltz", 1, ""⟩
      rfl (by decide) (by decide) (by decide) (by decide) (by decide) (by decide)).2
      (by decide)⟩

/-- C10: a completed single-couple row whose score cell parses to an integer
but carries no second whitespace-separated token makes the handler panic at
the judge-count `unwrap()` — it neither emits a record nor skips the row, so
the `unwrap` is safe only when every integer-scored cell lists the judges'
scores in a second token. -/
theorem c10_missing_judges_crash (series : Nat) (map : MMap) (row : WeekState)
    (celeb prof t0 : String) (n : Nat)
    (hstate : row.state = WeekExpect.EndRow)
    (hc : row.couple.data ≠ []) (hcu : row.couple_uses ≠ 0)
    (hs : row.score.data ≠ []) (hsu : row.score_uses ≠ 0)
    (hd : row.dance.data ≠ []) (hdu : row.dance_uses ≠ 0)
    (hcouple : splitOnS (trimS (decodeHtmlEntities row.couple)) " & " = [celeb, prof])
    (htoks : splitWhitespaceS (trimS (decodeHtmlEntities row.score)) = [t0])
    (hparse : parseU8? t0 = some n) :
    weekRowClose series map row = Except.error (PErr.crash "judges scores unwrap()") := by
  have hcne : (trimS (decodeHtmlEntities row.couple)).data ≠ [] := by
    intro h0
    have h0' : splitOnS (trimS (decodeHtmlEntities row.couple)) " & " = [""] := by
      unfold splitOnS splitOnChars
      rw [h0]
      rfl
    rw [hcouple] at h0'
    simp at h0'
  unfold weekRowClose
  rw [hstate]
  rw [if_neg (by simp)]
  rw [if_neg hc, if_neg hcu, if_neg hs, if_neg hsu, if_neg hd, if_neg hdu]
  simp only []
  rw [if_neg hcne]
  rw [hcouple]
  rw [htoks]
  simp only [List.headD]
  rw [hparse]

/-- Witness for C10: the score cell "32" alone crashes the handler. -/
theorem c10_missing_judges_crash_witness :
    weekRowClose 1 [] ⟨WeekExpect.EndRow, 5, "A & B", 1, "32", 1, "Waltz", 1, ""⟩ =
      Except.error (PErr.crash "judges scores unwrap()") :=
  c10_missing_judges_crash 1 [] ⟨WeekExpect.EndRow, 5, "A & B", 1, "32", 1, "Waltz", 1, ""⟩
    "A" "B" "32" 32 rfl (by decide) (by decide) (by decide) (by decide) (by decide) (by decide)
    (by decide) (by decide) rfl

end Strictly

